import Mathlib

set_option linter.unusedVariables false

/-!
Shallow embedding of the IHP PDK cell generators (`src/ihp/cells/capacitors.py`,
`src/ihp/cells/bjt_transistors.py`) and of the simulation utilities
(`src/examples/sim_utils.py`).  Geometric coordinates are modelled with exact
rationals; a gdsfactory `Component` is modelled as its list of rectangle
references, its ports and its `info` metadata dictionary.
-/

/-- A value stored in a component's `info` metadata dictionary. -/
inductive InfoVal where
  | str (s : String)
  | num (q : ℚ)
  | natPair (p : ℕ × ℕ)
deriving DecidableEq, Repr

/-- A rectangle reference: `gf.components.rectangle(size=..., layer=...)`
moved to `origin` (lower-left corner; `centered` is never set by this code). -/
structure Rect where
  layer : String
  size : ℚ × ℚ
  origin : ℚ × ℚ
deriving DecidableEq, Repr

/-- Geometric center of a rectangle reference. -/
def Rect.center (r : Rect) : ℚ × ℚ :=
  (r.origin.1 + r.size.1 / 2, r.origin.2 + r.size.2 / 2)

/-- A port added with `Component.add_port`. -/
structure Port where
  name : String
  center : ℚ × ℚ
  width : ℚ
  orientation : ℚ
  layer : String
  port_type : String
deriving DecidableEq, Repr

/-- A gdsfactory component: rectangle references, ports, metadata. -/
structure Component where
  rects : List Rect
  ports : List Port
  info : List (String × InfoVal)
deriving DecidableEq, Repr

/-- Lookup in the `info` metadata dictionary. -/
def Component.getInfo (c : Component) (k : String) : Option InfoVal :=
  c.info.lookup k

/-- The rectangle references of `c` drawn on layer `L`. -/
def Component.rectsOfLayer (c : Component) (L : String) : List Rect :=
  c.rects.filter fun r => r.layer == L

/-- Python's built-in `round`: round half to even (banker's rounding). -/
def pyRound (q : ℚ) : ℤ :=
  if q - ⌊q⌋ < 1/2 then ⌊q⌋
  else if 1/2 < q - ⌊q⌋ then ⌊q⌋ + 1
  else if ⌊q⌋ % 2 = 0 then ⌊q⌋ else ⌊q⌋ + 1

/-- `GRID_STEP = 0.005` (used by both `cmim` and `rfcmim`). -/
def GRID_STEP : ℚ := 5/1000

/-- `round(x / GRID_STEP) * GRID_STEP`: snapping a dimension to the grid. -/
def gridSnap (x : ℚ) : ℚ := pyRound (x / GRID_STEP) * GRID_STEP

/-- The double loop of `cmim` that places the Vmim tiles:
`for ix in range(n_x): for iy in range(n_y):` place a `tileLen` square at
`(ox + ix * pitch, oy + iy * pitch)`. -/
def vmimTiles (n_x n_y : ℕ) (layer : String) (ox oy pitch tileLen : ℚ) : List Rect :=
  (List.range n_x).flatMap fun (ix : ℕ) =>
    (List.range n_y).map fun (iy : ℕ) =>
      { layer := layer
        size := (tileLen, tileLen)
        origin := (ox + (ix : ℚ) * pitch, oy + (iy : ℚ) * pitch) }

/-- `cmim` from `src/ihp/cells/capacitors.py`: MIM capacitor.  Note that
`metal_1_mim_margin_x` is computed from the width *before* grid snapping,
exactly as in the source (line order). -/
def cmim (width : ℚ := 699/100) (length : ℚ := 699/100)
    (capacitance : Option ℚ := none) (model : String := "cmim")
    (layer_metal5 : String := "Metal5drawing")
    (layer_mim : String := "MIMdrawing")
    (layer_topmetal1 : String := "TopMetal1drawing")
    (layer_vmim : String := "Vmimdrawing") : Component :=
  let METAL_5_MIM_MARGIN : ℚ := 6/10
  let METAL_1_MIM_MARGIN : ℚ := 34/100
  let metal_1_mim_margin_x : ℚ := -(4/1000) * width + 625/1000
  let VMIM_TILE_LENGTH : ℚ := 42/100
  let VMIM_TILE_GAP : ℚ := 84/100
  let length := gridSnap length
  let width := gridSnap width
  let capacitance : ℚ :=
    match capacitance with
    | none => (width * length) * (154/100)
    | some cp => cp
  let mimRect : Rect := { layer := layer_mim, size := (width, length), origin := (0, 0) }
  let metal_5_size_x := width + 2 * METAL_5_MIM_MARGIN
  let metal_5_size_y := length + 2 * METAL_5_MIM_MARGIN
  let metal5Rect : Rect :=
    { layer := layer_metal5
      size := (metal_5_size_x, metal_5_size_y)
      origin := (-METAL_5_MIM_MARGIN, -METAL_5_MIM_MARGIN) }
  let metal_1_size_x := width - 2 * metal_1_mim_margin_x
  let metal_1_size_y := length - 2 * METAL_1_MIM_MARGIN
  let topMetal1Rect : Rect :=
    { layer := layer_topmetal1
      size := (metal_1_size_x, metal_1_size_y)
      origin := (metal_1_mim_margin_x, METAL_1_MIM_MARGIN) }
  let metal_1_vmim_margin := VMIM_TILE_LENGTH
  let tile_pitch := VMIM_TILE_LENGTH + VMIM_TILE_GAP
  let usable_x := width - 2 * metal_1_vmim_margin
  let usable_y := length - 2 * metal_1_vmim_margin
  let n_tiles_x : ℕ := (max ⌊(usable_x + VMIM_TILE_GAP) / tile_pitch⌋ 0).toNat
  let n_tiles_y : ℕ := (max ⌊(usable_y + VMIM_TILE_GAP) / tile_pitch⌋ 0).toNat
  let tiles := vmimTiles n_tiles_x n_tiles_y layer_vmim
      (METAL_1_MIM_MARGIN + metal_1_vmim_margin)
      (METAL_1_MIM_MARGIN + metal_1_vmim_margin) tile_pitch VMIM_TILE_LENGTH
  let p1 : Port :=
    { name := "P1"
      center := (-METAL_5_MIM_MARGIN + metal_5_size_x / 2,
                 -METAL_5_MIM_MARGIN + metal_5_size_y / 2)
      width := min metal_5_size_x metal_5_size_y
      orientation := 180
      layer := layer_metal5
      port_type := "electrical" }
  let p2 : Port :=
    { name := "P2"
      center := (METAL_1_MIM_MARGIN + metal_1_size_x / 2,
                 METAL_1_MIM_MARGIN + metal_1_size_y / 2)
      width := min metal_1_size_x metal_1_size_y
      orientation := 0
      layer := layer_topmetal1
      port_type := "electrical" }
  { rects := [mimRect, metal5Rect, topMetal1Rect] ++ tiles
    ports := [p1, p2]
    info := [("model", .str model),
             ("capacitance", .num capacitance),
             ("mim_length", .num length),
             ("mim_width", .num width),
             ("vmim_tile_length", .num VMIM_TILE_LENGTH),
             ("n_vmim_tiles", .natPair (n_tiles_x, n_tiles_y))] }

/-- `rfcmim` from `src/ihp/cells/capacitors.py`: RF MIM capacitor scaffold.
The size tuples are passed exactly as in the source: `(length, width)` etc.,
the first entry being the X-size.  The computed `capacitance` is never stored
(the source returns `c` without an `info.update`). -/
def rfcmim (width : ℚ := 7) (length : ℚ := 7)
    (capacitance : Option ℚ := none) (model : String := "rfcmim")
    (layer_activ : String := "Activdrawing")
    (layer_mim : String := "MIMdrawing")
    (layer_metal1 : String := "Metal1drawing")
    (layer_metal1_pin : String := "Metal1pin")
    (layer_metal5 : String := "Metal5drawing")
    (layer_metal5_pin : String := "Metal5pin")
    (layer_topmetal1 : String := "TopMetal1drawing")
    (layer_topmetal1_pin : String := "TopMetal1pin")
    (layer_vmim : String := "Vmimdrawing")
    (layer_cont : String := "Contdrawing")
    (layer_psd : String := "pSDdrawing")
    (layer_pwellblock : String := "PWellblock")
    (layers_no_qrc : List String :=
      ["Activnoqrc", "TopMetal1noqrc", "Metal1noqrc", "Metal2noqrc",
       "Metal3noqrc", "Metal4noqrc", "Metal5noqrc"]) : Component :=
  let MIM_METAL_5_MARGIN : ℚ := 6/10
  let MIM_PWELL_MARGIN : ℚ := 3
  let NO_QRC_PWELL_MARGIN : ℚ := 26/10
  let length := gridSnap length
  let width := gridSnap width
  let capacitance : ℚ :=
    match capacitance with
    | none => (width * length) * (154/100)
    | some cp => cp
  let mimRect : Rect := { layer := layer_mim, size := (length, width), origin := (0, 0) }
  let p_well_length := 2 * MIM_PWELL_MARGIN + length
  let p_well_width := 2 * MIM_PWELL_MARGIN + width
  let pwellRect : Rect :=
    { layer := layer_pwellblock
      size := (p_well_length, p_well_width)
      origin := (-MIM_PWELL_MARGIN, -MIM_PWELL_MARGIN) }
  let no_qrc_length := 2 * (MIM_PWELL_MARGIN + NO_QRC_PWELL_MARGIN) + length
  let no_qrc_width := 2 * (MIM_PWELL_MARGIN + NO_QRC_PWELL_MARGIN) + width
  let no_qrc_corner : ℚ × ℚ :=
    (-MIM_PWELL_MARGIN - NO_QRC_PWELL_MARGIN, -MIM_PWELL_MARGIN - NO_QRC_PWELL_MARGIN)
  let noQrcRects := layers_no_qrc.map fun layer =>
    ({ layer := layer, size := (no_qrc_length, no_qrc_width), origin := no_qrc_corner } : Rect)
  let metal_5_length := 2 * MIM_METAL_5_MARGIN + length
  let metal_5_width := 2 * MIM_METAL_5_MARGIN + width
  let metal5Rect : Rect :=
    { layer := layer_metal5
      size := (metal_5_length, metal_5_width)
      origin := (-MIM_METAL_5_MARGIN, -MIM_METAL_5_MARGIN) }
  { rects := [mimRect, pwellRect] ++ noQrcRects ++ [metal5Rect]
    ports := []
    info := [] }

/-- `npn13G2` from `src/ihp/cells/bjt_transistors.py`: the via-placement part
that the source actually executes (everything else is commented out).  All
parameters of the Python signature are kept, including the unused ones. -/
def npn13G2 (STI : ℚ := 44/100) (baspolyx : ℚ := 3/10) (bipwinx : ℚ := 7/100)
    (bipwiny : ℚ := 1/10) (empolyx : ℚ := 15/100) (empolyy : ℚ := 18/100)
    (emitter_length : ℚ := 9/10) (emitter_width : ℚ := 7/10)
    (Nx : ℤ := 1) (Ny : ℤ := 1) (text : String := "npn13G2")
    (CMetY1 : ℚ := 0) (CMetY2 : ℚ := 0)
    (extra_argument_for_naming : Option String := none) : Component :=
  let layer_via1 : String := "Via1drawing"
  let stepX : ℚ := 185/100
  let bipwinyoffset : ℚ := (2 * (bipwiny - 1/10) - 0) / 2
  let empolyyoffset : ℚ := (2 * (empolyy - 18/100)) / 2
  let leoffset : ℚ := 0
  let pcStepY : ℚ := 41/100
  let yOffset : ℚ := 2/10
  let pcRepeatY : ℤ := 4
  let rects := (List.range Nx.toNat).flatMap fun (pcIndexX : ℕ) =>
    (List.range pcRepeatY.toNat).flatMap fun (pcIndexY : ℕ) =>
      let via1_size : ℚ := 19/100
      let left := stepX * (pcIndexX : ℚ) - 3/10
      let bottom :=
        -((-(3/10) - yOffset - leoffset - bipwinyoffset - empolyyoffset)
            + (pcIndexY : ℚ) * pcStepY) + 2/10 - via1_size
      let left2 := stepX * (pcIndexX : ℚ) + 11/100
      [({ layer := layer_via1, size := (via1_size, via1_size), origin := (left, bottom) } : Rect),
       ({ layer := layer_via1, size := (via1_size, via1_size), origin := (left2, bottom) } : Rect)]
  { rects := rects
    ports := []
    info := [] }

/-! ### Module-level call semantics

`src/ihp/cells/bjt_transistors.py` has two module-level bindings (`tech_name`,
`tech`), set once at import and never assigned by any generator;
`src/ihp/cells/capacitors.py` has none.  A sequence of generator invocations
is interpreted against this module state. -/

/-- The full argument tuple of one `cmim` call. -/
structure CmimArgs where
  width : ℚ
  length : ℚ
  capacitance : Option ℚ
  model : String
  layer_metal5 : String
  layer_mim : String
  layer_topmetal1 : String
  layer_vmim : String
deriving DecidableEq

/-- The full argument tuple of one `rfcmim` call. -/
structure RfcmimArgs where
  width : ℚ
  length : ℚ
  capacitance : Option ℚ
  model : String
  layer_activ : String
  layer_mim : String
  layer_metal1 : String
  layer_metal1_pin : String
  layer_metal5 : String
  layer_metal5_pin : String
  layer_topmetal1 : String
  layer_topmetal1_pin : String
  layer_vmim : String
  layer_cont : String
  layer_psd : String
  layer_pwellblock : String
  layers_no_qrc : List String
deriving DecidableEq

/-- The full argument tuple of one `npn13G2` call. -/
structure NpnArgs where
  STI : ℚ
  baspolyx : ℚ
  bipwinx : ℚ
  bipwiny : ℚ
  empolyx : ℚ
  empolyy : ℚ
  emitter_length : ℚ
  emitter_width : ℚ
  Nx : ℤ
  Ny : ℤ
  text : String
  CMetY1 : ℚ
  CMetY2 : ℚ
  extra_argument_for_naming : Option String
deriving DecidableEq

/-- Apply `cmim` to a bundled argument tuple. -/
def cmimApply (a : CmimArgs) : Component :=
  cmim a.width a.length a.capacitance a.model
    a.layer_metal5 a.layer_mim a.layer_topmetal1 a.layer_vmim

/-- Apply `rfcmim` to a bundled argument tuple. -/
def rfcmimApply (a : RfcmimArgs) : Component :=
  rfcmim a.width a.length a.capacitance a.model
    a.layer_activ a.layer_mim a.layer_metal1 a.layer_metal1_pin a.layer_metal5
    a.layer_metal5_pin a.layer_topmetal1 a.layer_topmetal1_pin a.layer_vmim
    a.layer_cont a.layer_psd a.layer_pwellblock a.layers_no_qrc

/-- Apply `npn13G2` to a bundled argument tuple. -/
def npn13G2Apply (a : NpnArgs) : Component :=
  npn13G2 a.STI a.baspolyx a.bipwinx a.bipwiny a.empolyx a.empolyy
    a.emitter_length a.emitter_width a.Nx a.Ny a.text a.CMetY1 a.CMetY2
    a.extra_argument_for_naming

/-- The module-level bindings visible to the generators: `tech_name` and the
technology parameter dictionary `tech` of `bjt_transistors.py`. -/
structure ModuleState where
  tech_name : String
  tech : List (String × ℚ)
deriving DecidableEq

/-- One generator invocation with its full argument tuple. -/
inductive GenCall where
  | cmimCall (a : CmimArgs)
  | rfcmimCall (a : RfcmimArgs)
  | npnCall (a : NpnArgs)
deriving DecidableEq

/-- Run one generator invocation against the module state, returning the
state afterwards and the component produced.  The generator bodies only read
their arguments and construct a fresh local component, so the state passes
through unchanged — this mirrors the absence of any assignment to module
state in the source. -/
def runCall (s : ModuleState) (g : GenCall) : ModuleState × Component :=
  match g with
  | .cmimCall a => (s, cmimApply a)
  | .rfcmimCall a => (s, rfcmimApply a)
  | .npnCall a => (s, npn13G2Apply a)

/-- Run a sequence of generator invocations, threading the module state. -/
def runCalls (s : ModuleState) : List GenCall → ModuleState × List Component
  | [] => (s, [])
  | g :: rest =>
    let sc := runCall s g
    let rec' := runCalls sc.1 rest
    (rec'.1, sc.2 :: rec'.2)

/-- The component produced by invocation `g` when it is executed after the
invocation sequence `pre`, starting from module state `s`. -/
def componentAfter (s : ModuleState) (pre : List GenCall) (g : GenCall) : Component :=
  (runCall (runCalls s pre).1 g).2

/-! ### Models for `src/examples/sim_utils.py`

The external libraries (`zipfile`, `gdsfactoryplus.sim`, `meshio`,
`pyvista`) are not part of this repository; their calls are modelled as
oracles (an `Except` outcome per call).  The file system is modelled as a
snapshot of paths. -/

/-- A file-system snapshot: absolute paths (as component lists) together with
whether the entry is a regular file (`Path.is_file`). -/
structure FileSystem where
  entries : List (List String × Bool)
deriving DecidableEq

/-- `file.relative_to(input_dir)`: drop the directory's leading components. -/
def relative_to (root p : List String) : List String := p.drop root.length

/-- Whether `p` lies strictly below the directory `root`. -/
def underDir (root p : List String) : Bool :=
  decide (p.take root.length = root ∧ p ≠ root)

/-- `input_dir.rglob("*")`: every entry strictly below the directory. -/
def rglobStar (fs : FileSystem) (root : List String) : List (List String × Bool) :=
  fs.entries.filter fun e => underDir root e.1

/-- The archive member names written by `upload_simulation_dir`:
`for file in input_dir.rglob("*"): if file.is_file(): zf.write(file,
arcname=file.relative_to(input_dir))`. -/
def zipArchiveEntries (fs : FileSystem) (root : List String) : List (List String) :=
  ((rglobStar fs root).filter fun e => e.2).map fun e => relative_to root e.1

/-- The value returned by `sim.upload_simulation` (opaque to this repo). -/
structure PreJob where
  jobId : ℕ
deriving DecidableEq

/-- Outcome of one run of `upload_simulation_dir`: the returned value or the
exception propagated, how many times `sim.upload_simulation` was called, and
whether `simulation_zipfile.zip` is still on disk at the end. -/
structure UploadOutcome where
  result : Except String PreJob
  uploadCalls : ℕ
  zipFileRemains : Bool

/-- `upload_simulation_dir`, with the two fallible library phases as oracles:
`zipCreation` is the `with zipfile.ZipFile(...)` block (the archive file is
created on disk when the block is entered, and nothing removes it on error),
`uploadSimulation` is `sim.upload_simulation`.  On success the archive is
unlinked; there is no handler and no retry anywhere. -/
def upload_simulation_dir_run (zipCreation : Except String Unit)
    (uploadSimulation : Except String PreJob) : UploadOutcome :=
  match zipCreation with
  | .error e => { result := .error e, uploadCalls := 0, zipFileRemains := true }
  | .ok _ =>
    match uploadSimulation with
    | .error e => { result := .error e, uploadCalls := 1, zipFileRemains := true }
    | .ok pre_job => { result := .ok pre_job, uploadCalls := 1, zipFileRemains := false }

/-- Result of `meshio.read` (only `field_data` is consulted by the script). -/
structure MeshData where
  field_data : List (String × ℤ × ℕ)
deriving DecidableEq

/-- Result of `pv.read` (opaque to this repo). -/
structure PVMesh where
  n_cells : ℕ
deriving DecidableEq

/-- Outcome of one run of `plot_mesh_pv`: the propagated error (if any) and
how many times each fallible library phase was entered. -/
structure PlotOutcome where
  result : Except String Unit
  meshioReadCalls : ℕ
  pvReadCalls : ℕ
  renderCalls : ℕ

/-- `plot_mesh_pv`, with its fallible library phases as oracles: `meshio.read`,
`pv.read`, then the plotting/rendering phase (`show` or `screenshot`).  Each
phase runs once, in source order; any exception propagates with no handler. -/
def plot_mesh_pv_run (meshioRead : Except String MeshData)
    (pvRead : Except String PVMesh)
    (render : PVMesh → Except String Unit) : PlotOutcome :=
  match meshioRead with
  | .error e => { result := .error e, meshioReadCalls := 1, pvReadCalls := 0, renderCalls := 0 }
  | .ok _ =>
    match pvRead with
    | .error e => { result := .error e, meshioReadCalls := 1, pvReadCalls := 1, renderCalls := 0 }
    | .ok mesh =>
      match render mesh with
      | .error e => { result := .error e, meshioReadCalls := 1, pvReadCalls := 1, renderCalls := 1 }
      | .ok _ => { result := .ok (), meshioReadCalls := 1, pvReadCalls := 1, renderCalls := 1 }

/-- The fields of a simulation job object read by `print_job_summary`.
Timestamps are in whole seconds. -/
structure Job where
  job_name : String
  status_value : String
  exit_code : ℤ
  started_at : Option ℤ
  finished_at : Option ℤ
  requested_cpu : ℕ
  requested_memory_mb : ℕ
  output_size_bytes : ℕ
  download_urls : List (String × String)
deriving DecidableEq

/-- The structured content printed by `print_job_summary` (string rendering of
numbers abstracted; the numeric values themselves are kept). -/
structure JobSummary where
  job_name : String
  status_value : String
  exit_code : ℤ
  durationKnown : Bool
  durationMinutes : ℤ
  durationSeconds : ℤ
  size_kb : ℚ
  sizeShownAsMB : Bool
  memory_gb : ℕ
  files : List String
deriving DecidableEq

/-- `print_job_summary` is pure formatting over the job's fields: duration via
`divmod(int(delta.total_seconds()), 60)` (Python floor semantics), size in KB
shown as MB from 1024 KB on, file list from `download_urls`. -/
def print_job_summary_lines (job : Job) : JobSummary :=
  let durationKnown :=
    match job.started_at, job.finished_at with
    | some _, some _ => true
    | _, _ => false
  let totalSeconds : ℤ :=
    match job.started_at, job.finished_at with
    | some s, some f => f - s
    | _, _ => 0
  let size_kb : ℚ := (job.output_size_bytes : ℚ) / 1024
  { job_name := job.job_name
    status_value := job.status_value
    exit_code := job.exit_code
    durationKnown := durationKnown
    durationMinutes := Int.fdiv totalSeconds 60
    durationSeconds := Int.fmod totalSeconds 60
    size_kb := size_kb
    sizeShownAsMB := !(size_kb < 1024 : Bool)
    memory_gb := job.requested_memory_mb / 1024
    files := if job.download_urls.isEmpty then [] else job.download_urls.map fun e => e.1 }

/-- `print_job_summary` performs no fallible library call and installs no
handler: it always returns the formatted summary, never an error of its own. -/
def print_job_summary_run (job : Job) : Except String JobSummary :=
  .ok (print_job_summary_lines job)

/-! ### Helper lemmas -/

lemma pyRound_intCast (n : ℤ) : pyRound ((n : ℚ)) = n := by
  simp [pyRound]

lemma pyRound_nonneg {q : ℚ} (h : 0 ≤ q) : 0 ≤ pyRound q := by
  have hf : 0 ≤ ⌊q⌋ := Int.floor_nonneg.mpr h
  unfold pyRound
  split_ifs <;> omega

lemma gridSnap_nonneg {x : ℚ} (h : 0 ≤ x) : 0 ≤ gridSnap x := by
  have h1 : 0 ≤ x / GRID_STEP := div_nonneg h (by norm_num [GRID_STEP])
  have h2 : (0:ℚ) ≤ (pyRound (x / GRID_STEP) : ℚ) := by
    exact_mod_cast pyRound_nonneg h1
  unfold gridSnap
  exact mul_nonneg h2 (by norm_num [GRID_STEP])

lemma gridSnap_eval {x : ℚ} {n : ℤ} (h : x / GRID_STEP = (n:ℚ)) :
    gridSnap x = (n:ℚ) * GRID_STEP := by
  unfold gridSnap
  rw [h, pyRound_intCast]

lemma gridSnap_ten : gridSnap 10 = 10 := by
  rw [gridSnap_eval (n := 2000) (by norm_num [GRID_STEP])]
  norm_num [GRID_STEP]

lemma gridSnap_seven : gridSnap 7 = 7 := by
  rw [gridSnap_eval (n := 1400) (by norm_num [GRID_STEP])]
  norm_num [GRID_STEP]

lemma gridSnap_five : gridSnap 5 = 5 := by
  rw [gridSnap_eval (n := 1000) (by norm_num [GRID_STEP])]
  norm_num [GRID_STEP]

lemma gridSnap_default : gridSnap (699/100) = 699/100 := by
  rw [gridSnap_eval (n := 1398) (by norm_num [GRID_STEP])]
  norm_num [GRID_STEP]

lemma sum_map_const_range (n m : ℕ) : ((List.range n).map (fun _ => m)).sum = n * m := by
  induction n with
  | zero => simp
  | succ k ih => simp [List.range_succ, ih, Nat.succ_mul]

lemma vmimTiles_length (n m : ℕ) (lay : String) (ox oy p t : ℚ) :
    (vmimTiles n m lay ox oy p t).length = n * m := by
  simp [vmimTiles, List.length_flatMap, Function.comp_def, sum_map_const_range]

lemma vmimTiles_mem {r : Rect} {n m : ℕ} {lay : String} {ox oy p t : ℚ} :
    r ∈ vmimTiles n m lay ox oy p t ↔
      ∃ ix < n, ∃ iy < m,
        r = { layer := lay, size := (t, t),
              origin := (ox + (ix:ℚ) * p, oy + (iy:ℚ) * p) } := by
  unfold vmimTiles
  constructor
  · intro hr
    obtain ⟨ix, hix, hr2⟩ := List.mem_flatMap.mp hr
    obtain ⟨iy, hiy, rfl⟩ := List.mem_map.mp hr2
    exact ⟨ix, List.mem_range.mp hix, iy, List.mem_range.mp hiy, rfl⟩
  · rintro ⟨ix, hix, iy, hiy, rfl⟩
    exact List.mem_flatMap.mpr ⟨ix, List.mem_range.mpr hix,
      List.mem_map.mpr ⟨iy, List.mem_range.mpr hiy, rfl⟩⟩

lemma vmimTiles_filter_ne {lay L : String} (h : (lay == L) = false)
    (n m : ℕ) (ox oy p t : ℚ) :
    (vmimTiles n m lay ox oy p t).filter (fun r => r.layer == L) = [] := by
  refine List.filter_eq_nil_iff.mpr ?_
  intro r hr
  rcases vmimTiles_mem.mp hr with ⟨ix, _, iy, _, rfl⟩
  simp [h]

lemma vmimTiles_filter_self (lay : String) (n m : ℕ) (ox oy p t : ℚ) :
    (vmimTiles n m lay ox oy p t).filter (fun r => r.layer == lay) =
      vmimTiles n m lay ox oy p t := by
  refine List.filter_eq_self.mpr ?_
  intro r hr
  rcases vmimTiles_mem.mp hr with ⟨ix, _, iy, _, rfl⟩
  simp

/-- The single MIM-layer rectangle of `cmim` (default layer names). -/
lemma cmim_rectsOfLayer_mim (w l : ℚ) (cap : Option ℚ) (m : String) :
    (cmim w l cap m).rectsOfLayer "MIMdrawing" =
      [{ layer := "MIMdrawing", size := (gridSnap w, gridSnap l), origin := (0, 0) }] := by
  simp [cmim, Component.rectsOfLayer, List.filter_append, List.filter_cons,
    vmimTiles_filter_ne]

/-- The single Metal5 bottom-plate rectangle of `cmim` (default layer names). -/
lemma cmim_rectsOfLayer_metal5 (w l : ℚ) (cap : Option ℚ) (m : String) :
    (cmim w l cap m).rectsOfLayer "Metal5drawing" =
      [{ layer := "Metal5drawing",
         size := (gridSnap w + 2 * (6/10), gridSnap l + 2 * (6/10)),
         origin := (-(6/10), -(6/10)) }] := by
  simp [cmim, Component.rectsOfLayer, List.filter_append, List.filter_cons,
    vmimTiles_filter_ne]

/-- The single TopMetal1 top-plate rectangle of `cmim` (default layer names). -/
lemma cmim_rectsOfLayer_topmetal1 (w l : ℚ) (cap : Option ℚ) (m : String) :
    (cmim w l cap m).rectsOfLayer "TopMetal1drawing" =
      [{ layer := "TopMetal1drawing",
         size := (gridSnap w - 2 * (-(4/1000) * w + 625/1000),
                  gridSnap l - 2 * (34/100)),
         origin := (-(4/1000) * w + 625/1000, 34/100) }] := by
  simp [cmim, Component.rectsOfLayer, List.filter_append, List.filter_cons,
    vmimTiles_filter_ne]

/-- The Vmim-layer rectangles of `cmim` are exactly its tile grid
(default layer names). -/
lemma cmim_rectsOfLayer_vmim (w l : ℚ) (cap : Option ℚ) (m : String) :
    (cmim w l cap m).rectsOfLayer "Vmimdrawing" =
      vmimTiles
        ((max ⌊(gridSnap w - 2 * (42/100) + 84/100) / (42/100 + 84/100)⌋ 0).toNat)
        ((max ⌊(gridSnap l - 2 * (42/100) + 84/100) / (42/100 + 84/100)⌋ 0).toNat)
        "Vmimdrawing" (34/100 + 42/100) (34/100 + 42/100) (42/100 + 84/100) (42/100) := by
  simp [cmim, Component.rectsOfLayer, List.filter_append, List.filter_cons,
    vmimTiles_filter_self]

/-- The ports of `cmim` (default layer names), as literal values. -/
lemma cmim_ports (w l : ℚ) (cap : Option ℚ) (m : String) :
    (cmim w l cap m).ports =
      [{ name := "P1"
         center := (-(6/10) + (gridSnap w + 2 * (6/10)) / 2,
                    -(6/10) + (gridSnap l + 2 * (6/10)) / 2)
         width := min (gridSnap w + 2 * (6/10)) (gridSnap l + 2 * (6/10))
         orientation := 180
         layer := "Metal5drawing"
         port_type := "electrical" },
       { name := "P2"
         center := (34/100 + (gridSnap w - 2 * (-(4/1000) * w + 625/1000)) / 2,
                    34/100 + (gridSnap l - 2 * (34/100)) / 2)
         width := min (gridSnap w - 2 * (-(4/1000) * w + 625/1000))
                      (gridSnap l - 2 * (34/100))
         orientation := 0
         layer := "TopMetal1drawing"
         port_type := "electrical" }] := by
  simp [cmim]

/-- The single MIM-layer rectangle of `rfcmim` (default layer names): note the
X-size is the snapped *length* and the Y-size the snapped *width*. -/
lemma rfcmim_rectsOfLayer_mim (w l : ℚ) (cap : Option ℚ) (m : String) :
    (rfcmim w l cap m).rectsOfLayer "MIMdrawing" =
      [{ layer := "MIMdrawing", size := (gridSnap l, gridSnap w), origin := (0, 0) }] := by
  simp [rfcmim, Component.rectsOfLayer, List.filter_append, List.filter_cons]

/-- The single Metal5 rectangle of `rfcmim` (default layer names). -/
lemma rfcmim_rectsOfLayer_metal5 (w l : ℚ) (cap : Option ℚ) (m : String) :
    (rfcmim w l cap m).rectsOfLayer "Metal5drawing" =
      [{ layer := "Metal5drawing",
         size := (2 * (6/10) + gridSnap l, 2 * (6/10) + gridSnap w),
         origin := (-(6/10), -(6/10)) }] := by
  simp [rfcmim, Component.rectsOfLayer, List.filter_append, List.filter_cons]

lemma length_flatMap_const {α β : Type} (l : List α) (f : α → List β) (k : ℕ)
    (h : ∀ a ∈ l, (f a).length = k) : (l.flatMap f).length = l.length * k := by
  induction l with
  | nil => simp
  | cons a tl ih =>
    rw [List.flatMap_cons, List.length_append, h a (List.mem_cons_self a tl),
      ih fun b hb => h b (List.mem_cons_of_mem a hb)]
    simp [List.length_cons, Nat.succ_mul, Nat.add_comm]

/-! ### Claim theorems -/

/-- C1: for every width and length, when `cmim` is called with
`capacitance=None`, the `capacitance` metadata value equals the MIM plate area
(grid-snapped width times grid-snapped length) times the density constant
1.54. -/
theorem cmim_capacitance_info (w l : ℚ) :
    (cmim w l none).getInfo "capacitance" =
      some (.num (gridSnap w * gridSnap l * (154/100))) := rfl

/-- C5: the cell generators are deterministic — an invocation with a given
argument tuple produces the same rectangles, ports and metadata regardless of
the module state it runs in and of which invocations came before it. -/
theorem cell_generators_deterministic (s1 s2 : ModuleState)
    (pre1 pre2 : List GenCall) (g : GenCall) :
    (componentAfter s1 pre1 g).rects = (componentAfter s2 pre2 g).rects ∧
    (componentAfter s1 pre1 g).ports = (componentAfter s2 pre2 g).ports ∧
    (componentAfter s1 pre1 g).info = (componentAfter s2 pre2 g).info := by
  cases g <;> exact ⟨rfl, rfl, rfl⟩

/-- C6: no generator invocation reads or modifies shared state — each call
leaves the module state exactly as it found it, and a sequence of calls
produces exactly the list of components each call would produce on its own,
independent of the calls made before it. -/
theorem cell_generators_no_shared_state :
    (∀ (s : ModuleState) (g : GenCall), (runCall s g).1 = s) ∧
    (∀ (s : ModuleState) (calls : List GenCall),
      runCalls s calls = (s, calls.map fun g => (runCall s g).2)) := by
  constructor
  · intro s g; cases g <;> rfl
  · intro s calls
    induction calls with
    | nil => rfl
    | cons g rest ih =>
      have hs : (runCall s g).1 = s := by cases g <;> rfl
      simp [runCalls, hs, ih]

/-- C7: when an underlying library call fails, `upload_simulation_dir`
(zip phase or upload), `plot_mesh_pv` (mesh read, mesh load, or rendering)
propagate the error unchanged, each fallible call is attempted at most once
(no retry), and `print_job_summary` — which makes no fallible library call —
always returns its formatted summary with no error handling of its own. -/
theorem sim_utils_error_propagation :
    (∀ (e : String) (u : Except String PreJob),
        upload_simulation_dir_run (.error e) u =
          { result := .error e, uploadCalls := 0, zipFileRemains := true }) ∧
    (∀ e : String,
        upload_simulation_dir_run (.ok ()) (.error e) =
          { result := .error e, uploadCalls := 1, zipFileRemains := true }) ∧
    (∀ (e : String) (pv : Except String PVMesh) (render : PVMesh → Except String Unit),
        plot_mesh_pv_run (.error e) pv render =
          { result := .error e, meshioReadCalls := 1, pvReadCalls := 0, renderCalls := 0 }) ∧
    (∀ (md : MeshData) (e : String) (render : PVMesh → Except String Unit),
        plot_mesh_pv_run (.ok md) (.error e) render =
          { result := .error e, meshioReadCalls := 1, pvReadCalls := 1, renderCalls := 0 }) ∧
    (∀ (md : MeshData) (pm : PVMesh) (e : String),
        plot_mesh_pv_run (.ok md) (.ok pm) (fun _ => .error e) =
          { result := .error e, meshioReadCalls := 1, pvReadCalls := 1, renderCalls := 1 }) ∧
    (∀ job : Job, print_job_summary_run job = .ok (print_job_summary_lines job)) :=
  ⟨fun _ _ => rfl, fun _ => rfl, fun _ _ _ => rfl, fun _ _ _ => rfl,
   fun _ _ _ => rfl, fun _ => rfl⟩

/-- C10: `upload_simulation_dir` deletes `simulation_zipfile.zip` only after
the upload returns successfully; if the upload raises, the zip file remains
on disk. -/
theorem upload_zip_deleted_only_after_success :
    (∀ e : String,
        upload_simulation_dir_run (.ok ()) (.error e) =
          { result := .error e, uploadCalls := 1, zipFileRemains := true }) ∧
    (∀ pj : PreJob,
        upload_simulation_dir_run (.ok ()) (.ok pj) =
          { result := .ok pj, uploadCalls := 1, zipFileRemains := false }) :=
  ⟨fun _ => rfl, fun _ => rfl⟩

/-- C2: the archive built by `upload_simulation_dir` contains exactly the
regular files found recursively under the input directory, each stored under
its path relative to that directory, and nothing else. -/
theorem upload_zip_exact_contents (fs : FileSystem) (root : List String) (q : List String) :
    q ∈ zipArchiveEntries fs root ↔
      ∃ p, (p, true) ∈ fs.entries ∧ underDir root p = true ∧ q = relative_to root p := by
  simp only [zipArchiveEntries, rglobStar, List.mem_map, List.mem_filter]
  constructor
  · rintro ⟨⟨p, b⟩, ⟨⟨hmem, hdir⟩, hfile⟩, rfl⟩
    simp only at hfile
    subst hfile
    exact ⟨p, hmem, hdir, rfl⟩
  · rintro ⟨p, hmem, hdir, rfl⟩
    exact ⟨(p, true), ⟨⟨hmem, hdir⟩, rfl⟩, rfl⟩

/-- C3: evaluation of `cmim` at width=10, length=10.  Port `P1` sits at the
center `(5, 5)` of the Metal5 bottom-plate rectangle, but port `P2` sits at
`(4.755, 5)` while the TopMetal1 top-plate rectangle's center is `(5, 5)`:
the code uses `METAL_1_MIM_MARGIN` instead of `metal_1_mim_margin_x` for the
port's X-coordinate, contradicting its own comment
"Add TopMetal1 port (P2) at plate center". -/
theorem cmim_p2_not_at_plate_center :
    ((cmim 10 10).ports.map Port.center = [(5, 5), (951/200, 5)]) ∧
    (((cmim 10 10).rectsOfLayer "Metal5drawing").map Rect.center = [(5, 5)]) ∧
    (((cmim 10 10).rectsOfLayer "TopMetal1drawing").map Rect.center = [(5, 5)]) ∧
    ((951/200 : ℚ) ≠ 5) := by
  refine ⟨?_, ?_, ?_, by norm_num⟩
  · rw [cmim_ports 10 10 none "cmim", gridSnap_ten]
    simp [Prod.ext_iff]
    norm_num
  · rw [cmim_rectsOfLayer_metal5 10 10 none "cmim", gridSnap_ten]
    simp [Rect.center, Prod.ext_iff]
    norm_num
  · rw [cmim_rectsOfLayer_topmetal1 10 10 none "cmim", gridSnap_ten]
    simp [Rect.center, Prod.ext_iff]
    norm_num

/-- C4 counterexample: at width=7, length=5 (both already on the grid), the
Metal5 rectangle of `rfcmim` has size `(6.2, 8.2)`, not the claimed
`(width + 1.2, length + 1.2) = (8.2, 6.2)`, and its MIM rectangle has size
`(5, 7)`, not `(width, length) = (7, 5)`: the axes are swapped. -/
theorem rfcmim_metal5_size_swapped_cex :
    gridSnap 7 = 7 ∧ gridSnap 5 = 5 ∧
    ((rfcmim 7 5).rectsOfLayer "Metal5drawing").map Rect.size = [(31/5, 41/5)] ∧
    ((rfcmim 7 5).rectsOfLayer "MIMdrawing").map Rect.size = [(5, 7)] ∧
    ¬((31/5 : ℚ), (41/5 : ℚ)) = ((7:ℚ) + 12/10, (5:ℚ) + 12/10) ∧
    ¬((5 : ℚ), (7 : ℚ)) = ((7:ℚ), (5:ℚ)) := by
  refine ⟨gridSnap_seven, gridSnap_five, ?_, ?_, by norm_num [Prod.ext_iff],
    by norm_num [Prod.ext_iff]⟩
  · rw [rfcmim_rectsOfLayer_metal5 7 5 none "rfcmim", gridSnap_seven, gridSnap_five]
    norm_num [Prod.ext_iff]
  · rw [rfcmim_rectsOfLayer_mim 7 5 none "rfcmim", gridSnap_seven, gridSnap_five]
    rfl

/-- C4 amended: in `cmim` the Metal5 bottom plate has size
`(snapped width + 1.2, snapped length + 1.2)` and the MIM rectangle size
`(snapped width, snapped length)`, as claimed; in `rfcmim` the two axes are
swapped — Metal5 has size `(snapped length + 1.2, snapped width + 1.2)` and
the MIM rectangle `(snapped length, snapped width)`. -/
theorem cmim_rfcmim_plate_sizes (w l : ℚ) (cap : Option ℚ) :
    ((cmim w l cap).rectsOfLayer "Metal5drawing").map Rect.size
        = [(gridSnap w + 12/10, gridSnap l + 12/10)] ∧
    ((cmim w l cap).rectsOfLayer "MIMdrawing").map Rect.size
        = [(gridSnap w, gridSnap l)] ∧
    ((rfcmim w l cap).rectsOfLayer "Metal5drawing").map Rect.size
        = [(gridSnap l + 12/10, gridSnap w + 12/10)] ∧
    ((rfcmim w l cap).rectsOfLayer "MIMdrawing").map Rect.size
        = [(gridSnap l, gridSnap w)] := by
  refine ⟨?_, ?_, ?_, ?_⟩
  · rw [cmim_rectsOfLayer_metal5 w l cap "cmim"]
    norm_num [Prod.ext_iff]
  · rw [cmim_rectsOfLayer_mim w l cap "cmim"]
    rfl
  · rw [rfcmim_rectsOfLayer_metal5 w l cap "rfcmim"]
    norm_num [Prod.ext_iff]
    constructor <;> ring
  · rw [rfcmim_rectsOfLayer_mim w l cap "rfcmim"]
    rfl

/-- C8: for positive width and length, `cmim` records
`⌊snapped width / 1.26⌋ × ⌊snapped length / 1.26⌋` in the `n_vmim_tiles`
metadata, places exactly that many Vmim tiles, and every tile is a
0.42 × 0.42 square lying inside the MIM rectangle
`[0, snapped width] × [0, snapped length]`. -/
theorem cmim_vmim_tile_grid (w l : ℚ) (hw : 0 < w) (hl : 0 < l) :
    (cmim w l).getInfo "n_vmim_tiles" =
      some (.natPair (⌊gridSnap w / (126/100)⌋.toNat, ⌊gridSnap l / (126/100)⌋.toNat)) ∧
    ((cmim w l).rectsOfLayer "Vmimdrawing").length =
      ⌊gridSnap w / (126/100)⌋.toNat * ⌊gridSnap l / (126/100)⌋.toNat ∧
    ∀ r ∈ (cmim w l).rectsOfLayer "Vmimdrawing",
      r.size = (42/100, 42/100) ∧
      0 ≤ r.origin.1 ∧ r.origin.1 + 42/100 ≤ gridSnap w ∧
      0 ≤ r.origin.2 ∧ r.origin.2 + 42/100 ≤ gridSnap l := by
  have hsw : (0:ℚ) ≤ gridSnap w := gridSnap_nonneg hw.le
  have hsl : (0:ℚ) ≤ gridSnap l := gridSnap_nonneg hl.le
  have hfw : 0 ≤ ⌊gridSnap w / (126/100)⌋ := Int.floor_nonneg.mpr (by positivity)
  have hfl : 0 ≤ ⌊gridSnap l / (126/100)⌋ := Int.floor_nonneg.mpr (by positivity)
  have hargw : gridSnap w - 2 * (42/100) + 84/100 = gridSnap w := by ring
  have hargl : gridSnap l - 2 * (42/100) + 84/100 = gridSnap l := by ring
  have hpitch : (42/100 : ℚ) + 84/100 = 126/100 := by norm_num
  have hnX : (max ⌊(gridSnap w - 2 * (42/100) + 84/100) / (42/100 + 84/100)⌋ 0).toNat
      = ⌊gridSnap w / (126/100)⌋.toNat := by
    rw [hargw, hpitch, max_eq_left hfw]
  have hnY : (max ⌊(gridSnap l - 2 * (42/100) + 84/100) / (42/100 + 84/100)⌋ 0).toNat
      = ⌊gridSnap l / (126/100)⌋.toNat := by
    rw [hargl, hpitch, max_eq_left hfl]
  have hNw : ((⌊gridSnap w / (126/100)⌋.toNat : ℚ)) * (126/100) ≤ gridSnap w := by
    have hc : ((⌊gridSnap w / (126/100)⌋.toNat : ℚ)) = ((⌊gridSnap w / (126/100)⌋ : ℤ) : ℚ) := by
      exact_mod_cast Int.toNat_of_nonneg hfw
    have hle : ((⌊gridSnap w / (126/100)⌋ : ℤ) : ℚ) ≤ gridSnap w / (126/100) :=
      Int.floor_le _
    rw [hc]
    calc ((⌊gridSnap w / (126/100)⌋ : ℤ) : ℚ) * (126/100)
        ≤ (gridSnap w / (126/100)) * (126/100) :=
          mul_le_mul_of_nonneg_right hle (by norm_num)
      _ = gridSnap w := by field_simp
  have hNl : ((⌊gridSnap l / (126/100)⌋.toNat : ℚ)) * (126/100) ≤ gridSnap l := by
    have hc : ((⌊gridSnap l / (126/100)⌋.toNat : ℚ)) = ((⌊gridSnap l / (126/100)⌋ : ℤ) : ℚ) := by
      exact_mod_cast Int.toNat_of_nonneg hfl
    have hle : ((⌊gridSnap l / (126/100)⌋ : ℤ) : ℚ) ≤ gridSnap l / (126/100) :=
      Int.floor_le _
    rw [hc]
    calc ((⌊gridSnap l / (126/100)⌋ : ℤ) : ℚ) * (126/100)
        ≤ (gridSnap l / (126/100)) * (126/100) :=
          mul_le_mul_of_nonneg_right hle (by norm_num)
      _ = gridSnap l := by field_simp
  refine ⟨?_, ?_, ?_⟩
  · have h1 : (cmim w l).getInfo "n_vmim_tiles" =
        some (.natPair
          ((max ⌊(gridSnap w - 2 * (42/100) + 84/100) / (42/100 + 84/100)⌋ 0).toNat,
           (max ⌊(gridSnap l - 2 * (42/100) + 84/100) / (42/100 + 84/100)⌋ 0).toNat)) := rfl
    rw [h1, hnX, hnY]
  · rw [cmim_rectsOfLayer_vmim w l none "cmim", vmimTiles_length, hnX, hnY]
  · intro r hr
    rw [cmim_rectsOfLayer_vmim w l none "cmim"] at hr
    obtain ⟨ix, hix, iy, hiy, rfl⟩ := vmimTiles_mem.mp hr
    rw [hnX] at hix
    rw [hnY] at hiy
    have hixq : (ix:ℚ) + 1 ≤ ((⌊gridSnap w / (126/100)⌋.toNat : ℚ)) := by
      exact_mod_cast Nat.succ_le_of_lt hix
    have hiyq : (iy:ℚ) + 1 ≤ ((⌊gridSnap l / (126/100)⌋.toNat : ℚ)) := by
      exact_mod_cast Nat.succ_le_of_lt hiy
    refine ⟨rfl, ?_, ?_, ?_, ?_⟩
    · show (0:ℚ) ≤ 34/100 + 42/100 + (ix:ℚ) * (42/100 + 84/100)
      positivity
    · show 34/100 + 42/100 + (ix:ℚ) * (42/100 + 84/100) + 42/100 ≤ gridSnap w
      nlinarith [hixq, hNw]
    · show (0:ℚ) ≤ 34/100 + 42/100 + (iy:ℚ) * (42/100 + 84/100)
      positivity
    · show 34/100 + 42/100 + (iy:ℚ) * (42/100 + 84/100) + 42/100 ≤ gridSnap l
      nlinarith [hiyq, hNl]

/-- Witness for C8 at width = length = 6.99 (the source defaults): the
hypotheses hold, the tile count per axis is `⌊6.99 / 1.26⌋ = 5`, and the
theorem applies. -/
theorem cmim_vmim_tile_grid_witness :
    (0 < (699/100 : ℚ)) ∧
    (⌊gridSnap (699/100) / (126/100)⌋.toNat = 5) ∧
    ((cmim (699/100) (699/100)).getInfo "n_vmim_tiles" =
      some (.natPair (⌊gridSnap (699/100) / (126/100)⌋.toNat,
                      ⌊gridSnap (699/100) / (126/100)⌋.toNat)) ∧
     ((cmim (699/100) (699/100)).rectsOfLayer "Vmimdrawing").length =
       ⌊gridSnap (699/100) / (126/100)⌋.toNat * ⌊gridSnap (699/100) / (126/100)⌋.toNat ∧
     ∀ r ∈ (cmim (699/100) (699/100)).rectsOfLayer "Vmimdrawing",
       r.size = (42/100, 42/100) ∧
       0 ≤ r.origin.1 ∧ r.origin.1 + 42/100 ≤ gridSnap (699/100) ∧
       0 ≤ r.origin.2 ∧ r.origin.2 + 42/100 ≤ gridSnap (699/100)) :=
  ⟨by norm_num,
   by
    rw [gridSnap_default]
    have h5 : ⌊(699/100 : ℚ) / (126/100)⌋ = 5 := by
      rw [show ((699:ℚ)/100) / ((126:ℚ)/100) = 699/126 by norm_num]
      rw [Int.floor_eq_iff]
      norm_num
    rw [h5]
    rfl,
   cmim_vmim_tile_grid (699/100) (699/100) (by norm_num) (by norm_num)⟩

/-- C9: for `Nx ≥ 1`, `npn13G2` places exactly `8 * Nx` Via1 rectangles, each
a 0.19 × 0.19 square, and the component depends only on `Nx`, `bipwiny` and
`empolyy` — all other parameters have no effect on the placed rectangles. -/
theorem npn13G2_via1_geometry
    (STI1 baspolyx1 bipwinx1 bipwiny empolyx1 empolyy el1 ew1 : ℚ)
    (Nx Ny1 : ℤ) (text1 : String) (cm11 cm21 : ℚ) (ex1 : Option String)
    (STI2 baspolyx2 bipwinx2 empolyx2 el2 ew2 : ℚ)
    (Ny2 : ℤ) (text2 : String) (cm12 cm22 : ℚ) (ex2 : Option String)
    (h : 1 ≤ Nx) :
    (npn13G2 STI1 baspolyx1 bipwinx1 bipwiny empolyx1 empolyy el1 ew1 Nx Ny1
        text1 cm11 cm21 ex1).rects.length = 8 * Nx.toNat ∧
    (∀ r ∈ (npn13G2 STI1 baspolyx1 bipwinx1 bipwiny empolyx1 empolyy el1 ew1 Nx
        Ny1 text1 cm11 cm21 ex1).rects,
      r.layer = "Via1drawing" ∧ r.size = (19/100, 19/100)) ∧
    npn13G2 STI1 baspolyx1 bipwinx1 bipwiny empolyx1 empolyy el1 ew1 Nx Ny1
        text1 cm11 cm21 ex1 =
      npn13G2 STI2 baspolyx2 bipwinx2 bipwiny empolyx2 empolyy el2 ew2 Nx Ny2
        text2 cm12 cm22 ex2 := by
  refine ⟨?_, ?_, rfl⟩
  · simp only [npn13G2]
    rw [length_flatMap_const _ _ 8, List.length_range, Nat.mul_comm]
    intro a _
    rw [length_flatMap_const _ _ 2, List.length_range]
    · rfl
    · exact fun _ _ => rfl
  · intro r hr
    simp only [npn13G2, List.mem_flatMap, List.mem_cons,
      List.mem_singleton] at hr
    obtain ⟨ix, _, iy, _, hr⟩ := hr
    rcases hr with rfl | rfl | hnil
    · exact ⟨rfl, rfl⟩
    · exact ⟨rfl, rfl⟩
    · exact absurd hnil (List.not_mem_nil r)

/-- Witness for C9 at `Nx = 1`, with every irrelevant parameter differing
between the two invocations. -/
theorem npn13G2_via1_geometry_witness :
    ((1:ℤ) ≤ 1) ∧
    ((npn13G2 0 0 0 (1/10) 0 (18/100) 0 0 1 1 "a" 0 0 none).rects.length
        = 8 * (1:ℤ).toNat ∧
     (∀ r ∈ (npn13G2 0 0 0 (1/10) 0 (18/100) 0 0 1 1 "a" 0 0 none).rects,
       r.layer = "Via1drawing" ∧ r.size = (19/100, 19/100)) ∧
     npn13G2 0 0 0 (1/10) 0 (18/100) 0 0 1 1 "a" 0 0 none =
       npn13G2 1 2 3 (1/10) 4 (18/100) 5 6 1 2 "b" 7 8 (some "x")) :=
  ⟨by norm_num,
   npn13G2_via1_geometry 0 0 0 (1/10) 0 (18/100) 0 0 1 1 "a" 0 0 none
     1 2 3 4 5 6 2 "b" 7 8 (some "x") (by norm_num)⟩
